import Mathlib

/-!
Verification of the OHTTP app-relay-gateway request-dispatch code.

The definitions below are a shallow embedding of `gateway.go` (the
`gatewayResource` methods `httpError`, `gatewayHandler`, `marshalHandler`,
`configHandler`) and of the older revision kept alongside it (notably
`checkAllowList`).  Stateful interaction with the `http.ResponseWriter` is
modelled as the list of write operations the handler performs on it, in
program order; metrics `Fire` calls are collected in a list; closing the
request body and invoking the registered encapsulation handler are recorded
as booleans.  External collaborators (the ohttp library `Unmarshal`
function and the registered `EncapsulationHandler`) are parameters.
-/

namespace Gateway

/-- Constant from gateway.go: the required request media type. -/
def ohttpRequestContentType : String := "message/ohttp-req"

/-- Constant from gateway.go: the response media type. -/
def ohttpResponseContentType : String := "message/ohttp-res"

/-- Constant from gateway.go: `twelveHours = 12 * 3600`. -/
def twelveHours : Nat := 12 * 3600

/-- Constant from gateway.go: `twentyFourHours = 24 * 3600`. -/
def twentyFourHours : Nat := 24 * 3600

/-- Constant from gateway.go: metrics category of the marshal handler. -/
def metricsEventMarshalRequest : String := "marshal_request"

/-- Constant from gateway.go: metrics category of the gateway handler. -/
def metricsEventGatewayRequest : String := "gateway_request"

/-- Constant from gateway.go: result label for a non-POST method. -/
def metricsResultInvalidMethod : String := "invalid_method"

/-- Constant from gateway.go: result label for a wrong content type. -/
def metricsResultInvalidContentType : String := "invalid_content_type"

/-- Constant from gateway.go: result label for an unreadable or unparsable body. -/
def metricsResultInvalidContent : String := "invalid_content"

/-- Modelled from the spec: the "requested" metric label used by the marshal
handler is referenced in gateway.go but defined in a repository file not
present under src; its exact string value is irrelevant to the claims. -/
def metricsResultRequested : String := "requested"

/-- Modelled from the spec: section 4.2 says the marshal handler "fires a
success metric under the marshal_request category"; the constant itself is
defined in a repository file not present under src. -/
def metricsResultSuccess : String := "success"

/-- Go `http.StatusText` restricted to the status codes this program uses. -/
def statusText : Nat → String
  | 200 => "OK"
  | 400 => "Bad Request"
  | 401 => "Unauthorized"
  | 403 => "Forbidden"
  | 500 => "Internal Server Error"
  | _ => ""

/-- The parts of Go `*http.Request` the gateway reads: method, the
`Content-Type` header, the URL path, and the outcome that `ioutil.ReadAll`
on the body would produce (either an I/O error string or the bytes). -/
structure Request where
  method : String
  contentType : String
  urlPath : String
  bodyRead : Except String (List Nat)

/-- ohttp.EncapsulatedRequest: key identifier plus opaque payload bytes. -/
structure EncapsulatedRequest where
  keyID : Nat
  payload : List Nat
deriving DecidableEq

/-- ohttp.EncapsulatedResponse, abstracted to the bytes `Marshal` returns. -/
structure EncapsulatedResponse where
  marshalBytes : List Nat
deriving DecidableEq

/-- `Marshal` on an encapsulated response. -/
def EncapsulatedResponse.marshal (resp : EncapsulatedResponse) : List Nat :=
  resp.marshalBytes

/-- ohttp KeyConfig, abstracted to the bytes `Marshal` returns. -/
structure KeyConfig where
  marshalBytes : List Nat
deriving DecidableEq

/-- `Marshal` on a key configuration. -/
def KeyConfig.marshal (c : KeyConfig) : List Nat :=
  c.marshalBytes

/-- The error values an encapsulation handler can return, as compared by
`gatewayHandler`: the two sentinel errors `ConfigMismatchError` and
`GatewayTargetForbiddenError` (declared in a repository file not present
under src and compared by identity in gateway.go), and every other error,
carrying its message. -/
inductive HandlerError where
  | configMismatch
  | gatewayTargetForbidden
  | other (msg : String)
deriving DecidableEq

/-- The `Error()` string of a handler error; the sentinel texts live outside
src and no claim depends on them. -/
def HandlerError.message : HandlerError → String
  | .configMismatch => "config mismatch"
  | .gatewayTargetForbidden => "target forbidden"
  | .other m => m

/-- One operation performed on the `http.ResponseWriter`:
`setHeader n v` is `w.Header().Set(n, v)`;
`error st b` is `http.Error(w, b, st)` (which writes `b` and a newline);
`writeStr b` is `w.Write([]byte(b))` for a string `b`;
`writeBytes b` is `w.Write(b)` for binary content `b`. -/
inductive WriteOp where
  | setHeader (headerName headerValue : String)
  | error (status : Nat) (body : String)
  | writeStr (body : String)
  | writeBytes (body : List Nat)
deriving DecidableEq

/-- A metrics `Fire` call: the category the metrics object was created
under, and the fired result label. -/
structure MetricsEvent where
  category : String
  result : String
deriving DecidableEq

/-- The `EncapsulationHandler.Handle` contract: given the HTTP request and
the encapsulated request, return either a typed failure or an encapsulated
response, together with the metric result labels the handler itself fires
under the category it was handed. -/
def EncapsulationHandler : Type :=
  Request → EncapsulatedRequest → (Except HandlerError EncapsulatedResponse) × List String

/-- The ohttp `UnmarshalEncapsulatedRequest` collaborator: bytes to either a
parse-error string or an `EncapsulatedRequest`. -/
def UnmarshalFn : Type :=
  List Nat → Except String EncapsulatedRequest

/-- The fields of `gatewayResource` the handlers read. The handler registry
is the Go map `encapsulationHandlers`, modelled as a lookup function. -/
structure GatewayState where
  verbose : Bool
  keyID : Nat
  debug : Bool
  encapsulationHandlers : String → Option EncapsulationHandler

/-- Everything observable one handler invocation produces: the response
writes in program order, the metric events fired, whether `r.Body.Close()`
ran inside the handler, and whether the registered encapsulation handler
was invoked. -/
structure HandlerOutput where
  writes : List WriteOp
  metrics : List MetricsEvent
  bodyClosed : Bool
  handlerInvoked : Bool
deriving DecidableEq

/-- `gatewayResource.httpError` from gateway.go, as the response writes it
performs: with `debug` set it sends the debug message via `http.Error` and
then writes the same message again; otherwise it sends only the generic
status text.  (The `verbose` log line goes to the server log, not to the
response, and is not part of the write trace.) -/
def httpError (s : GatewayState) (status : Nat) (debugMessage : String) : List WriteOp :=
  if s.debug then
    [WriteOp.error status debugMessage, WriteOp.writeStr debugMessage]
  else
    [WriteOp.error status (statusText status)]

/-- The status of the first operation that commits a status code: Go
`http.Error` uses its argument, a plain `Write` commits 200, and a bare
header set commits nothing. -/
def opStatus : WriteOp → Option Nat
  | .setHeader _ _ => none
  | .error st _ => some st
  | .writeStr _ => some 200
  | .writeBytes _ => some 200

/-- The HTTP status of a write trace: the first committed status, or 200
when the handler never writes (Go net/http default). -/
def responseStatus (ops : List WriteOp) : Nat :=
  match ops.filterMap opStatus with
  | [] => 200
  | st :: _ => st

/-- The textual response body accumulated by a write trace.  `http.Error`
appends a newline after its message; binary writes carry no text. -/
def responseText : List WriteOp → String
  | [] => ""
  | WriteOp.error _ b :: rest => b ++ "\n" ++ responseText rest
  | WriteOp.writeStr b :: rest => b ++ responseText rest
  | WriteOp.setHeader _ _ :: rest => responseText rest
  | WriteOp.writeBytes _ :: rest => responseText rest

/-- `gatewayResource.gatewayHandler` from gateway.go, with the ohttp
unmarshal function as an explicit collaborator.  Each branch mirrors one
exit path of the Go function in order: method check, content-type check,
handler lookup, body read (from here `defer r.Body.Close()` is armed, so
`bodyClosed` is true on all later exits), unmarshal, dispatch, and the
error-to-status mapping on handler failure. -/
def gatewayHandler (unmarshal : UnmarshalFn) (s : GatewayState) (r : Request) :
    HandlerOutput :=
  if r.method ≠ "POST" then
    ⟨httpError s 400 ("Invalid method: " ++ r.method),
     [⟨metricsEventGatewayRequest, metricsResultInvalidMethod⟩], false, false⟩
  else if r.contentType ≠ ohttpRequestContentType then
    ⟨httpError s 400 ("Invalid content type: " ++ r.contentType),
     [⟨metricsEventGatewayRequest, metricsResultInvalidContentType⟩], false, false⟩
  else
    match s.encapsulationHandlers r.urlPath with
    | none =>
        ⟨httpError s 400 ("Unknown handler for " ++ r.urlPath), [], false, false⟩
    | some encapHandler =>
        match r.bodyRead with
        | Except.error readErr =>
            ⟨httpError s 400 ("Reading request body failed: " ++ readErr),
             [⟨metricsEventGatewayRequest, metricsResultInvalidContent⟩], true, false⟩
        | Except.ok encryptedMessageBytes =>
            match unmarshal encryptedMessageBytes with
            | Except.error _ =>
                ⟨httpError s 400 "Reading request body failed",
                 [⟨metricsEventGatewayRequest, metricsResultInvalidContent⟩], true, false⟩
            | Except.ok encapsulatedReq =>
                match encapHandler r encapsulatedReq with
                | (Except.error e, handlerFired) =>
                    ⟨(match e with
                      | HandlerError.configMismatch =>
                          [WriteOp.error 401 (statusText 401)]
                      | HandlerError.gatewayTargetForbidden =>
                          [WriteOp.error 403 (statusText 403)]
                      | HandlerError.other _ =>
                          [WriteOp.error 400 (statusText 400)]),
                     handlerFired.map
                       (fun m => ⟨metricsEventGatewayRequest, m⟩),
                     true, true⟩
                | (Except.ok encapsulatedResp, handlerFired) =>
                    ⟨[WriteOp.setHeader "Content-Type" ohttpResponseContentType,
                      WriteOp.setHeader "Connection" "Keep-Alive",
                      WriteOp.writeBytes encapsulatedResp.marshal],
                     handlerFired.map
                       (fun m => ⟨metricsEventGatewayRequest, m⟩),
                     true, true⟩

/-- Prefix a handler output with earlier response writes. -/
def prependWrites (ops : List WriteOp) (out : HandlerOutput) : HandlerOutput :=
  ⟨ops ++ out.writes, out.metrics, out.bodyClosed, out.handlerInvoked⟩

/-- The body of `gatewayResource.marshalHandler` from gateway.go after its
initial debug gate: fire the "requested" metric, check the method, resolve
the handler, invoke it with the empty `ohttp.EncapsulatedRequest{}`
sentinel, then (on success) perform the "Config unavailable" 500 writes
followed by the actual content response and the success metric. -/
def marshalBody (s : GatewayState) (r : Request) : HandlerOutput :=
  if r.method ≠ "POST" then
    ⟨httpError s 400 ("Invalid method: " ++ r.method),
     [⟨metricsEventMarshalRequest, metricsResultRequested⟩], false, false⟩
  else
    match s.encapsulationHandlers r.urlPath with
    | none =>
        ⟨httpError s 400 ("Unknown handler for " ++ r.urlPath),
         [⟨metricsEventMarshalRequest, metricsResultRequested⟩], false, false⟩
    | some encapHandler =>
        match encapHandler r ⟨0, []⟩ with
        | (Except.error e, handlerFired) =>
            ⟨httpError s 400 ("Encapsulation failed: " ++ e.message),
             ⟨metricsEventMarshalRequest, metricsResultRequested⟩ ::
               handlerFired.map (fun m => ⟨metricsEventMarshalRequest, m⟩),
             false, true⟩
        | (Except.ok packedRequest, handlerFired) =>
            ⟨httpError s 500 "Config unavailable" ++
               [WriteOp.error 500 (statusText 500),
                WriteOp.setHeader "Content-Type" ohttpResponseContentType,
                WriteOp.setHeader "Content-Length"
                  (toString packedRequest.marshal.length),
                WriteOp.writeBytes packedRequest.marshal],
             (⟨metricsEventMarshalRequest, metricsResultRequested⟩ ::
                handlerFired.map (fun m => ⟨metricsEventMarshalRequest, m⟩)) ++
               [⟨metricsEventMarshalRequest, metricsResultSuccess⟩],
             false, true⟩

/-- `gatewayResource.marshalHandler` from gateway.go: when `debug` is off it
calls `httpError` with 403 but does not return, so the whole body still
runs after the forbidden write. -/
def marshalHandler (s : GatewayState) (r : Request) : HandlerOutput :=
  if s.debug = false then
    prependWrites (httpError s 403 "Forbidden. Allowed in debug mode only.")
      (marshalBody s r)
  else
    marshalBody s r

/-- `gatewayResource.configHandler` from gateway.go.  `cfg` is the result of
`s.gateway.Config(s.keyID)`; `intnSample` is the value the call
`rand.Intn(twentyFourHours)` returned, so the Go contract puts it in
`[0, twentyFourHours)`.  On success the handler sets the jittered
`Cache-Control` header and writes the marshalled config. -/
def configHandler (_s : GatewayState) (cfg : Except String KeyConfig)
    (intnSample : Nat) (_r : Request) : List WriteOp :=
  match cfg with
  | Except.error _ => [WriteOp.error 500 (statusText 500)]
  | Except.ok config =>
      [WriteOp.setHeader "Cache-Control"
        ("max-age=" ++ toString (twelveHours + intnSample) ++ ", private"),
       WriteOp.writeBytes config.marshal]

/-- `gatewayResource.checkAllowList` from the older revision of the gateway
source: `allowedOrigins` is the receiver field (a Go map used as a set of
origin keys, hence a key-membership test); a nil map permits everything. -/
def checkAllowList (allowedOrigins : Option (List String))
    (targetOrigin : String) : Bool :=
  match allowedOrigins with
  | some keys => keys.contains targetOrigin
  | none => true

/-! Concrete collaborators, states and requests used by witness and
counterexample theorems. -/

/-- A registered handler that always succeeds with a one-byte response. -/
def handlerOkW : EncapsulationHandler := fun _ _ => (Except.ok ⟨[9]⟩, [])

/-- A registered handler that always fails with the key-mismatch sentinel. -/
def handlerMismatchW : EncapsulationHandler :=
  fun _ _ => (Except.error HandlerError.configMismatch, [])

/-- An unmarshal collaborator that always parses successfully. -/
def unmarshalOkW : UnmarshalFn := fun _ => Except.ok ⟨7, [1]⟩

/-- An unmarshal collaborator that always reports malformed bytes. -/
def unmarshalFailW : UnmarshalFn := fun _ => Except.error "malformed envelope"

/-- A non-debug state whose registry maps every path to `handlerMismatchW`. -/
def stateW : GatewayState := ⟨false, 7, false, fun _ => some handlerMismatchW⟩

/-- A non-debug state whose registry maps every path to `handlerOkW`. -/
def stateOkW : GatewayState := ⟨false, 7, false, fun _ => some handlerOkW⟩

/-- A debug-enabled state whose registry maps every path to `handlerOkW`. -/
def stateDbgOkW : GatewayState := ⟨false, 7, true, fun _ => some handlerOkW⟩

/-- A well-formed POST request to the content path. -/
def reqPostW : Request := ⟨"POST", ohttpRequestContentType, "/gateway", Except.ok [3]⟩

/-- A GET request to the content path (wrong method). -/
def reqGetW : Request := ⟨"GET", ohttpRequestContentType, "/gateway", Except.ok [3]⟩

/-! Helper lemmas shared by the theorems below. -/

/-- `httpError` always commits exactly the status it is given, in both the
debug and the generic branch. -/
theorem responseStatus_httpError (s : GatewayState) (st : Nat) (msg : String) :
    responseStatus (httpError s st msg) = st := by
  unfold httpError
  by_cases h : s.debug <;> simp [h, responseStatus, opStatus]

/-! Claim theorems. -/

/-- C8: when no allow-list is configured every target origin is permitted;
when one is configured, an origin is permitted exactly when it is a member
of the list. -/
theorem checkAllowList_spec (keys : List String) (origin : String) :
    checkAllowList none origin = true ∧
    (checkAllowList (some keys) origin = true ↔ origin ∈ keys) := by
  refine ⟨rfl, ?_⟩
  simp [checkAllowList]

/-- C9: with the debug flag enabled, `httpError` writes the debug message
through `http.Error` (which appends a newline) and then writes the same
message again, so the response text contains it twice. -/
theorem httpError_debug_doubles_message (s : GatewayState) (st : Nat) (msg : String)
    (hdbg : s.debug = true) :
    httpError s st msg = [WriteOp.error st msg, WriteOp.writeStr msg] ∧
    responseText (httpError s st msg) = msg ++ "\n" ++ msg := by
  unfold httpError
  simp [hdbg, responseText, String.append_assoc]

/-- Witness for C9 at a concrete state, status and message. -/
theorem httpError_debug_doubles_message_witness :
    httpError ⟨false, 1, true, fun _ => none⟩ 400 "oops" =
      [WriteOp.error 400 "oops", WriteOp.writeStr "oops"] ∧
    responseText (httpError ⟨false, 1, true, fun _ => none⟩ 400 "oops") =
      "oops" ++ "\n" ++ "oops" :=
  httpError_debug_doubles_message ⟨false, 1, true, fun _ => none⟩ 400 "oops" rfl

/-- C10: the config handler never inspects the HTTP method: any two
requests produce the same response, and that response is the serialized
KeyConfig on success or a generic 500 when the config is unavailable. -/
theorem configHandler_ignores_method (s : GatewayState)
    (cfg : Except String KeyConfig) (smp : Nat) (r r2 : Request) :
    configHandler s cfg smp r = configHandler s cfg smp r2 ∧
    configHandler s cfg smp r =
      (match cfg with
       | Except.error _ => [WriteOp.error 500 (statusText 500)]
       | Except.ok c =>
           [WriteOp.setHeader "Cache-Control"
             ("max-age=" ++ toString (twelveHours + smp) ++ ", private"),
            WriteOp.writeBytes c.marshal]) := by
  cases cfg <;> exact ⟨rfl, rfl⟩

/-- C3: on success, with `intnSample` the value `rand.Intn(twentyFourHours)`
returned (hence below `twentyFourHours`), the Cache-Control header is
`max-age=<N>, private` with `N = twelveHours + intnSample`, and that N lies
in the half-open interval [43200, 129600). -/
theorem configHandler_cache_control (s : GatewayState) (c : KeyConfig) (smp : Nat)
    (r : Request) (hs : smp < twentyFourHours) :
    configHandler s (Except.ok c) smp r =
      [WriteOp.setHeader "Cache-Control"
        ("max-age=" ++ toString (twelveHours + smp) ++ ", private"),
       WriteOp.writeBytes c.marshal] ∧
    43200 ≤ twelveHours + smp ∧ twelveHours + smp < 129600 := by
  refine ⟨rfl, ?_, ?_⟩ <;> (unfold twelveHours; unfold twentyFourHours at hs) <;> omega

/-- Witness for C3 at a concrete config and sample value. -/
theorem configHandler_cache_control_witness :
    configHandler ⟨false, 1, false, fun _ => none⟩ (Except.ok ⟨[7]⟩) 100
        ⟨"GET", "", "/config", Except.ok []⟩ =
      [WriteOp.setHeader "Cache-Control"
        ("max-age=" ++ toString (twelveHours + 100) ++ ", private"),
       WriteOp.writeBytes [7]] ∧
    43200 ≤ twelveHours + 100 ∧ twelveHours + 100 < 129600 :=
  configHandler_cache_control ⟨false, 1, false, fun _ => none⟩ ⟨[7]⟩ 100
    ⟨"GET", "", "/config", Except.ok []⟩ (by decide)

/-- C2: a non-POST request to the content path is answered with status 400,
the registered handler is not invoked, and the only metric fired is the
invalid-method event under the gateway_request category. -/
theorem gatewayHandler_non_post (unmarshal : UnmarshalFn) (s : GatewayState)
    (r : Request) (hm : r.method ≠ "POST") :
    responseStatus (gatewayHandler unmarshal s r).writes = 400 ∧
    (gatewayHandler unmarshal s r).handlerInvoked = false ∧
    (gatewayHandler unmarshal s r).metrics =
      [⟨metricsEventGatewayRequest, metricsResultInvalidMethod⟩] := by
  unfold gatewayHandler
  simp [hm, responseStatus_httpError]

/-- Witness for C2: a GET request to the content path. -/
theorem gatewayHandler_non_post_witness :
    responseStatus (gatewayHandler unmarshalOkW stateOkW reqGetW).writes = 400 ∧
    (gatewayHandler unmarshalOkW stateOkW reqGetW).handlerInvoked = false ∧
    (gatewayHandler unmarshalOkW stateOkW reqGetW).metrics =
      [⟨metricsEventGatewayRequest, metricsResultInvalidMethod⟩] :=
  gatewayHandler_non_post unmarshalOkW stateOkW reqGetW (by decide)

/-- C1: when a request reaches handler dispatch and the handler fails, the
key/config-mismatch sentinel maps to 401, the target-forbidden sentinel to
403, and every other handler error to 400. -/
theorem gatewayHandler_error_mapping (unmarshal : UnmarshalFn) (s : GatewayState)
    (r : Request) (encapHandler : EncapsulationHandler) (bytes : List Nat)
    (req : EncapsulatedRequest) (e : HandlerError) (fired : List String)
    (hmethod : r.method = "POST")
    (hct : r.contentType = ohttpRequestContentType)
    (hlookup : s.encapsulationHandlers r.urlPath = some encapHandler)
    (hbody : r.bodyRead = Except.ok bytes)
    (hparse : unmarshal bytes = Except.ok req)
    (hhandle : encapHandler r req = (Except.error e, fired)) :
    responseStatus (gatewayHandler unmarshal s r).writes =
      (match e with
       | HandlerError.configMismatch => 401
       | HandlerError.gatewayTargetForbidden => 403
       | HandlerError.other _ => 400) := by
  unfold gatewayHandler
  simp [hmethod, hct, hlookup, hbody, hparse, hhandle]
  cases e <;> simp [responseStatus, opStatus]

/-- Witness for C1: a dispatched request whose handler reports the
key-mismatch sentinel is answered with 401. -/
theorem gatewayHandler_error_mapping_witness :
    responseStatus (gatewayHandler unmarshalOkW stateW reqPostW).writes = 401 :=
  gatewayHandler_error_mapping unmarshalOkW stateW reqPostW handlerMismatchW
    [3] ⟨7, [1]⟩ HandlerError.configMismatch [] rfl rfl rfl rfl rfl rfl

/-- C4: when the body bytes fail to deserialize into an EncapsulatedRequest,
the invalid-content metric fires and the handler answers 400 through
`httpError` with the fixed message "Reading request body failed" — an
expression independent of the parser error, so no parser detail is echoed. -/
theorem gatewayHandler_unparsable_body (unmarshal : UnmarshalFn) (s : GatewayState)
    (r : Request) (encapHandler : EncapsulationHandler) (bytes : List Nat)
    (perr : String)
    (hmethod : r.method = "POST")
    (hct : r.contentType = ohttpRequestContentType)
    (hlookup : s.encapsulationHandlers r.urlPath = some encapHandler)
    (hbody : r.bodyRead = Except.ok bytes)
    (hparse : unmarshal bytes = Except.error perr) :
    (gatewayHandler unmarshal s r).metrics =
      [⟨metricsEventGatewayRequest, metricsResultInvalidContent⟩] ∧
    (gatewayHandler unmarshal s r).writes =
      httpError s 400 "Reading request body failed" ∧
    responseStatus (gatewayHandler unmarshal s r).writes = 400 := by
  unfold gatewayHandler
  simp [hmethod, hct, hlookup, hbody, hparse, responseStatus_httpError]

/-- Witness for C4: a well-formed POST whose body bytes do not parse. -/
theorem gatewayHandler_unparsable_body_witness :
    (gatewayHandler unmarshalFailW stateOkW reqPostW).metrics =
      [⟨metricsEventGatewayRequest, metricsResultInvalidContent⟩] ∧
    (gatewayHandler unmarshalFailW stateOkW reqPostW).writes =
      httpError stateOkW 400 "Reading request body failed" ∧
    responseStatus (gatewayHandler unmarshalFailW stateOkW reqPostW).writes = 400 :=
  gatewayHandler_unparsable_body unmarshalFailW stateOkW reqPostW handlerOkW
    [3] "malformed envelope" rfl rfl rfl rfl rfl

/-- C7 counterexample: on the bad-method early exit (a GET request) the
gateway handler finishes without ever closing the request body, because the
deferred close is only armed after the handler lookup succeeds. -/
theorem gatewayHandler_get_leaves_body_open :
    (gatewayHandler unmarshalOkW stateOkW reqGetW).bodyClosed = false := rfl

/-- C7 amended: once the method check, the content-type check and the
handler lookup have passed — i.e. from the point where gateway.go arms
`defer r.Body.Close()` — the body is closed on every exit path, success or
failure; the earlier exits never close it inside the handler. -/
theorem gatewayHandler_body_closed_after_resolution (unmarshal : UnmarshalFn)
    (s : GatewayState) (r : Request) (encapHandler : EncapsulationHandler)
    (hmethod : r.method = "POST")
    (hct : r.contentType = ohttpRequestContentType)
    (hlookup : s.encapsulationHandlers r.urlPath = some encapHandler) :
    (gatewayHandler unmarshal s r).bodyClosed = true := by
  unfold gatewayHandler
  simp [hmethod, hct, hlookup]
  rcases hrb : r.bodyRead with readErr | bytes
  · simp [hrb]
  · rcases hu : unmarshal bytes with perr | req
    · simp [hrb, hu]
    · rcases hh : encapHandler r req with ⟨res, fired⟩
      rcases res with e | resp <;> simp [hrb, hu, hh]

/-- Witness for C7 amended: a dispatched POST request closes the body. -/
theorem gatewayHandler_body_closed_witness :
    (gatewayHandler unmarshalOkW stateOkW reqPostW).bodyClosed = true :=
  gatewayHandler_body_closed_after_resolution unmarshalOkW stateOkW reqPostW
    handlerOkW rfl rfl rfl

/-- C5: with the debug flag disabled the marshal handler first performs the
403 Forbidden write (generic text, since debug is off) and then still
executes its whole body: the remaining writes and all metrics — beginning
with the requested event — are those of the rest of the handler body. -/
theorem marshalHandler_forbidden_continues (s : GatewayState) (r : Request)
    (hdbg : s.debug = false) :
    (marshalHandler s r).writes =
      WriteOp.error 403 (statusText 403) :: (marshalBody s r).writes ∧
    (marshalHandler s r).metrics = (marshalBody s r).metrics ∧
    (marshalBody s r).metrics.head? =
      some ⟨metricsEventMarshalRequest, metricsResultRequested⟩ := by
  refine ⟨?_, ?_, ?_⟩
  · unfold marshalHandler prependWrites httpError
    simp [hdbg]
  · unfold marshalHandler prependWrites
    simp [hdbg]
  · unfold marshalBody
    split
    · rfl
    · split
      · rfl
      · split <;> rfl

/-- Witness for C5: a non-debug state still runs the marshal body after the
403 write. -/
theorem marshalHandler_forbidden_continues_witness :
    (marshalHandler stateOkW reqPostW).writes =
      WriteOp.error 403 (statusText 403) :: (marshalBody stateOkW reqPostW).writes ∧
    (marshalHandler stateOkW reqPostW).metrics =
      (marshalBody stateOkW reqPostW).metrics ∧
    (marshalBody stateOkW reqPostW).metrics.head? =
      some ⟨metricsEventMarshalRequest, metricsResultRequested⟩ :=
  marshalHandler_forbidden_continues stateOkW reqPostW rfl

/-- C6 counterexample: a concrete debug-mode invocation whose handler call
succeeds executes the Config-unavailable 500 writes (and the follow-up
generic 500 write) before the actual content response is built and
written, so those statements are not unreachable. -/
theorem marshalHandler_config_unavailable_executed :
    (marshalHandler stateDbgOkW reqPostW).writes =
      [WriteOp.error 500 "Config unavailable",
       WriteOp.writeStr "Config unavailable",
       WriteOp.error 500 (statusText 500),
       WriteOp.setHeader "Content-Type" ohttpResponseContentType,
       WriteOp.setHeader "Content-Length" "1",
       WriteOp.writeBytes [9]] := rfl

/-- C6 amended: the Config-unavailable 500 write is reachable — it executes
on every marshal invocation whose encapsulation-handler call succeeds,
immediately before the handler builds and writes its actual response; only
the earlier failure exits skip it. -/
theorem marshalBody_config_unavailable_on_success (s : GatewayState) (r : Request)
    (encapHandler : EncapsulationHandler) (resp : EncapsulatedResponse)
    (fired : List String)
    (hmethod : r.method = "POST")
    (hlookup : s.encapsulationHandlers r.urlPath = some encapHandler)
    (hhandle : encapHandler r ⟨0, []⟩ = (Except.ok resp, fired)) :
    (marshalBody s r).writes =
      httpError s 500 "Config unavailable" ++
        [WriteOp.error 500 (statusText 500),
         WriteOp.setHeader "Content-Type" ohttpResponseContentType,
         WriteOp.setHeader "Content-Length" (toString resp.marshal.length),
         WriteOp.writeBytes resp.marshal] := by
  unfold marshalBody
  simp [hmethod, hlookup, hhandle]

/-- Witness for C6 amended: the concrete success invocation above. -/
theorem marshalBody_config_unavailable_witness :
    (marshalBody stateDbgOkW reqPostW).writes =
      httpError stateDbgOkW 500 "Config unavailable" ++
        [WriteOp.error 500 (statusText 500),
         WriteOp.setHeader "Content-Type" ohttpResponseContentType,
         WriteOp.setHeader "Content-Length" (toString (EncapsulatedResponse.marshal ⟨[9]⟩).length),
         WriteOp.writeBytes (EncapsulatedResponse.marshal ⟨[9]⟩)] :=
  marshalBody_config_unavailable_on_success stateDbgOkW reqPostW handlerOkW
    ⟨[9]⟩ [] rfl rfl rfl

end Gateway
